import Mathlib

/-!
Verification of the TMS backend shipment resolvers against their
natural-language specification.

The development is a shallow embedding of the GraphQL resolver layer
(`apps/backend/src/graphql/resolvers`, found concatenated in
`config/environment.ts`) and of the per-request batched relation loader
(`apps/backend/src/types/context.ts`).

Modelling conventions:
* Prisma rows become Lean structures; nullable columns become `Option`.
* `DateTime` values are integer timestamps (milliseconds since epoch, as
  produced by `Date.now()`); `Float` columns (`rate`, `weight`,
  `latitude`, `longitude`, dimension sizes) are modelled over `Int` —
  only comparisons on them occur in the embedded code.
* The database is an explicit record of row lists; each asynchronous
  Prisma call becomes a pure function on that record, sequenced in the
  order the resolver awaits them.
* `GraphQLError` codes become the `Err` inductive; a resolver that can
  throw returns `Except Err _`.
* JavaScript truthiness (`x || d`, `x ?? d`, `if (x)`) is translated
  explicitly (`jsOrInt`, `jsOrStr`, …): `0`, `""`, `null`, `undefined`
  are falsy.
-/

namespace TMS

/-- GraphQL error codes used by the resolvers
(`extensions.code` of each thrown `GraphQLError`). -/
inductive Err where
  | UNAUTHENTICATED
  | FORBIDDEN
  | NOT_FOUND
  | BAD_USER_INPUT
  | INTERNAL
  deriving Repr, DecidableEq

/-- The authenticated user placed on the GraphQL context by
`createContext` (interface `User` in `types/context.ts`). -/
structure CtxUser where
  id : String
  email : String
  role : String
  firstName : String
  lastName : String
  deriving Repr, DecidableEq

/-- The request-scoped GraphQL context (`GraphQLContext`); the loaders are
modelled separately as explicit state, so only the `user` field remains. -/
structure Ctx where
  user : Option CtxUser
  deriving Repr, DecidableEq

/-- A `Location` row. -/
structure Location where
  id : String
  address : String
  city : String
  state : Option String
  country : String
  postalCode : Option String
  latitude : Option Int
  longitude : Option Int
  deriving Repr, DecidableEq

/-- A `Dimensions` row. -/
structure DimensionsRow where
  id : String
  length : Int
  width : Int
  height : Int
  deriving Repr, DecidableEq

/-- A `TrackingEvent` row: free-text `status` label, owning `shipmentId`. -/
structure TrackingEvent where
  id : String
  shipmentId : String
  status : String
  timestamp : Int
  locationId : Option String
  description : Option String
  deriving Repr, DecidableEq

/-- A `Shipment` row.  `status` is kept as a `String` because the resolver
layer manipulates status values as strings (the GraphQL schema validates
enum membership before the resolver runs). -/
structure Shipment where
  id : String
  trackingNumber : String
  shipperName : String
  shipperPhone : Option String
  shipperEmail : Option String
  consigneeName : String
  consigneePhone : Option String
  consigneeEmail : Option String
  pickupLocationId : String
  deliveryLocationId : String
  carrierName : Option String
  carrierPhone : Option String
  weight : Option Int
  dimensionsId : Option String
  rate : Option Int
  currency : Option String
  status : String
  isFlagged : Bool
  flagReason : Option String
  pickupDate : Option Int
  estimatedDelivery : Option Int
  actualDelivery : Option Int
  notes : Option String
  createdById : String
  updatedById : String
  createdAt : Int
  updatedAt : Int
  deriving Repr, DecidableEq

/-- A `User` row as selected by the user batch loader in
`types/context.ts` (password column excluded by the `select`). -/
structure DBUser where
  id : String
  email : String
  firstName : String
  lastName : String
  role : String
  isActive : Bool
  createdAt : Int
  updatedAt : Int
  deriving Repr, DecidableEq

/-- The relational store: one list per table, plus a counter from which
fresh primary keys are generated (Prisma generates cuid ids; only
freshness matters to the embedded code). -/
structure DB where
  shipments : List Shipment
  trackingEvents : List TrackingEvent
  locations : List Location
  dimensionsRows : List DimensionsRow
  users : List DBUser
  nextId : Nat
  deriving Repr, DecidableEq

/-- A fresh primary key for the next row created in `db`. -/
def freshId (db : DB) : String :=
  "rec" ++ toString db.nextId

/-! ## Query inputs (`ShipmentFilterInput`, `SortInput`, `PaginationInput`) -/

/-- Input `DateRangeInput { from, to }`; `from`/`to` are Lean keywords, hence
`fromDate`/`toDate`. -/
structure DateRangeInput where
  fromDate : Option Int
  toDate : Option Int
  deriving Repr, DecidableEq

/-- Input `RateRangeInput { min, max }`. -/
structure RateRangeInput where
  min : Option Int
  max : Option Int
  deriving Repr, DecidableEq

/-- Input `ShipmentFilterInput`. -/
structure ShipmentFilterInput where
  status : Option (List String)
  carrierName : Option String
  dateRange : Option DateRangeInput
  rateRange : Option RateRangeInput
  isFlagged : Option Bool
  searchTerm : Option String
  deriving Repr, DecidableEq

/-- Input `SortInput { field, order }`; both arrive in the resolver as strings
(`ShipmentSortField` and `SortOrder` enum member names). -/
structure SortInput where
  field : String
  order : String
  deriving Repr, DecidableEq

/-- Input `PaginationInput { page, limit }` (the unused `cursor` field is
omitted). -/
structure PaginationInput where
  page : Option Int
  limit : Option Int
  deriving Repr, DecidableEq

/-- The argument object of the `shipments` query. -/
structure ShipmentsArgs where
  filter : Option ShipmentFilterInput
  sort : Option SortInput
  pagination : Option PaginationInput
  deriving Repr, DecidableEq

/-! ## JavaScript coercion helpers -/

/-- JS `x || d` on an optional number: `undefined`/`null` and `0` are
falsy. -/
def jsOrInt (v : Option Int) (d : Int) : Int :=
  match v with
  | none => d
  | some x => if x = 0 then d else x

/-- JS `x || d` on an optional string: `undefined`/`null` and `""` are
falsy. -/
def jsOrStr (v : Option String) (d : String) : String :=
  match v with
  | none => d
  | some s => if s = "" then d else s

/-- JS `Math.ceil(a / b)` on integers, for `b ≠ 0` (division by zero never
occurs at the one call site; see `effectiveLimit`).  Lean `Int` division
is Euclidean, so floor for a positive divisor and ceiling for a negative
one. -/
def jsCeilDiv (a b : Int) : Int :=
  if 0 < b then -(-a / b) else a / b

/-- Case-insensitive substring test: Prisma
`{ contains: needle, mode: insensitive }`. -/
def ciContains (hay needle : String) : Bool :=
  decide (List.IsInfix needle.toLower.toList hay.toLower.toList)

/-- Case-insensitive substring test against a nullable column: a SQL
`NULL` value matches no `contains` condition. -/
def ciContainsOpt (hay : Option String) (needle : String) : Bool :=
  match hay with
  | none => false
  | some h => ciContains h needle

/-! ## The `where` clause of the `shipments` query -/

/-- The conjunctive predicate the `shipments` resolver builds into its
`where` object (lines 96-137); both the row query and the count query
receive this same object.  Each branch mirrors one `if` of the source,
including its JS truthiness test (`filter?.status?.length`,
`filter?.carrierName`, `filter?.isFlagged !== undefined`, …). -/
def matchesFilter (filter : Option ShipmentFilterInput) (s : Shipment) : Bool :=
  match filter with
  | none => true
  | some f =>
    (match f.status with
     | none => true
     | some l => if l.length = 0 then true else l.contains s.status) &&
    (match f.carrierName with
     | none => true
     | some c => if c = "" then true else ciContainsOpt s.carrierName c) &&
    (match f.isFlagged with
     | none => true
     | some b => s.isFlagged = b) &&
    (match f.dateRange with
     | none => true
     | some dr =>
       (match dr.fromDate with
        | none => true
        | some t => t ≤ s.createdAt) &&
       (match dr.toDate with
        | none => true
        | some t => s.createdAt ≤ t)) &&
    (match f.rateRange with
     | none => true
     | some rr =>
       (match rr.min with
        | none => true
        | some m => match s.rate with
          | none => false
          | some r => m ≤ r) &&
       (match rr.max with
        | none => true
        | some m => match s.rate with
          | none => false
          | some r => r ≤ m)) &&
    (match f.searchTerm with
     | none => true
     | some t =>
       if t = "" then true
       else
         ciContains s.trackingNumber t ||
         ciContains s.shipperName t ||
         ciContains s.consigneeName t ||
         ciContainsOpt s.carrierName t)

/-! ## Ordering -/

/-- The `fieldMap` of the resolver: GraphQL sort-field enum name to column
name, with unrecognised values falling back to `createdAt`. -/
def fieldMap (f : String) : String :=
  match f with
  | "CREATED_AT" => "createdAt"
  | "UPDATED_AT" => "updatedAt"
  | "TRACKING_NUMBER" => "trackingNumber"
  | "STATUS" => "status"
  | "SHIPPER_NAME" => "shipperName"
  | "CONSIGNEE_NAME" => "consigneeName"
  | "PICKUP_DATE" => "pickupDate"
  | "ESTIMATED_DELIVERY" => "estimatedDelivery"
  | "RATE" => "rate"
  | _ => "createdAt"

/-- Ascending comparison on a nullable integer column (Postgres orders
NULLs last in ascending order). -/
def optIntLe (a b : Option Int) : Bool :=
  match a, b with
  | none, _ => b.isNone
  | some _, none => true
  | some x, some y => x ≤ y

/-- Ascending row comparison for one column name (the value stored in the
`orderBy` object of the resolver). -/
def fieldLe (field : String) (a b : Shipment) : Bool :=
  match field with
  | "updatedAt" => a.updatedAt ≤ b.updatedAt
  | "trackingNumber" => a.trackingNumber ≤ b.trackingNumber
  | "status" => a.status ≤ b.status
  | "shipperName" => a.shipperName ≤ b.shipperName
  | "consigneeName" => a.consigneeName ≤ b.consigneeName
  | "pickupDate" => optIntLe a.pickupDate b.pickupDate
  | "estimatedDelivery" => optIntLe a.estimatedDelivery b.estimatedDelivery
  | "rate" => optIntLe a.rate b.rate
  | _ => a.createdAt ≤ b.createdAt

/-- The comparison realising the `orderBy` object of the resolver: when
`sort?.field` is truthy the mapped field is used with
`sort.order?.toLowerCase() || "desc"` as direction, otherwise
`createdAt: "desc"`. -/
def shipmentLe (sort : Option SortInput) (a b : Shipment) : Bool :=
  match sort with
  | none => fieldLe "createdAt" b a
  | some s0 =>
    if s0.field = "" then fieldLe "createdAt" b a
    else
      let f := fieldMap s0.field
      if jsOrStr (some s0.order.toLower) "desc" = "asc" then fieldLe f a b
      else fieldLe f b a

/-! ## Pagination -/

/-- Effective page: `pagination?.page || 1` (line 91). -/
def effectivePage (p : Option PaginationInput) : Int :=
  jsOrInt (p.bind (·.page)) 1

/-- Effective limit: `Math.min(pagination?.limit || 10, 100)` (line 92). -/
def effectiveLimit (p : Option PaginationInput) : Int :=
  min (jsOrInt (p.bind (·.limit)) 10) 100

/-- Metadata `pageInfo` of a `ShipmentConnection`. -/
structure PageInfo where
  hasNextPage : Bool
  hasPreviousPage : Bool
  totalPages : Int
  totalCount : Nat
  currentPage : Int
  deriving Repr, DecidableEq

/-- A page of results.  `edges` carries the row of each edge; the cursor
(base64 of the row id) plays no role in any property considered here. -/
structure ShipmentConnection where
  edges : List Shipment
  pageInfo : PageInfo
  deriving Repr, DecidableEq

/-- Helper `requireAuth`: throw `UNAUTHENTICATED` unless a user is on the
context. -/
def requireAuth (ctx : Ctx) : Except Err CtxUser :=
  match ctx.user with
  | none => .error .UNAUTHENTICATED
  | some u => .ok u

/-- Helper `requireAdmin`: `requireAuth`, then throw `FORBIDDEN` unless the role
is `ADMIN`. -/
def requireAdmin (ctx : Ctx) : Except Err CtxUser :=
  match requireAuth ctx with
  | .error e => .error e
  | .ok u => if u.role = "ADMIN" then .ok u else .error .FORBIDDEN

/-- The `shipments` query (lines 72-224): auth gate, effective
page/limit/skip, one `where` predicate feeding both `findMany`
(order, skip, take) and `count`, then the pagination metadata.
Prisma `take` semantics: a negative `take` returns the last `|take|`
rows of the ordering (`skip` then also counts from that end), with the
result still in the requested order; a negative `skip` is rejected by
Prisma with a validation error, which the resolver does not catch
(surfaced as an internal error).  The relation hydration step
(DataLoader) does not alter `edges` membership or `pageInfo` and is
modelled separately. -/
def shipmentsQuery (ctx : Ctx) (args : ShipmentsArgs) (db : DB) :
    Except Err ShipmentConnection :=
  match requireAuth ctx with
  | .error e => .error e
  | .ok _ =>
    let page := effectivePage args.pagination
    let limit := effectiveLimit args.pagination
    let skip := (page - 1) * limit
    if skip < 0 then .error .INTERNAL
    else
      let matched := db.shipments.filter (matchesFilter args.filter)
      let sorted := matched.mergeSort (shipmentLe args.sort)
      let rows :=
        if limit < 0 then
          (((sorted.reverse).drop skip.toNat).take (-limit).toNat).reverse
        else (sorted.drop skip.toNat).take limit.toNat
      let totalCount := matched.length
      let totalPages := jsCeilDiv totalCount limit
      .ok
        { edges := rows
          pageInfo :=
            { hasNextPage := decide (page < totalPages)
              hasPreviousPage := decide (1 < page)
              totalPages := totalPages
              totalCount := totalCount
              currentPage := page } }

/-! ## Point queries -/

/-- The `shipment(id)` query (lines 227-246): auth gate, then
`findUnique` by primary key (`find?` — primary keys are unique). -/
def shipmentQuery (ctx : Ctx) (id : String) (db : DB) :
    Except Err (Option Shipment) :=
  match requireAuth ctx with
  | .error e => .error e
  | .ok _ => .ok (db.shipments.find? (fun s => s.id = id))

/-- The `shipmentByTrackingNumber(trackingNumber)` query (lines 249-269):
no auth gate ("This can be public for tracking purposes"), `findUnique`
on the unique `trackingNumber` column. -/
def shipmentByTrackingNumber (_ctx : Ctx) (trackingNumber : String) (db : DB) :
    Except Err (Option Shipment) :=
  .ok (db.shipments.find? (fun s => s.trackingNumber = trackingNumber))

/-! ## Mutations -/

/-- Prisma `update({ where: {unique column matching p}, data })`: replace
the matching row by `v`.  (On a miss Prisma throws; the callers below
check for the miss first or surface `INTERNAL`.) -/
def updateWhere {α : Type} (p : α → Bool) (v : α) (l : List α) : List α :=
  l.map (fun t => if p t then v else t)

/-- Helper `generateTrackingNumber` (lines 22-27): `"TMS"` + `Date.now()` in
upper-case base 36 + six upper-cased random base-36 characters.  The
clock reading and the random component are parameters (`now`, `rand`):
they are the two sources of nondeterminism. -/
def generateTrackingNumber (now : Nat) (rand : String) : String :=
  "TMS" ++ (String.mk ((Nat.toDigits 36 now).map Char.toUpper) ++ rand.toUpper)

/-- Input `LocationInput`. -/
structure LocationInput where
  address : String
  city : String
  state : Option String
  country : String
  postalCode : Option String
  latitude : Option Int
  longitude : Option Int
  deriving Repr, DecidableEq

/-- Input `DimensionsInput`. -/
structure DimensionsInput where
  length : Int
  width : Int
  height : Int
  deriving Repr, DecidableEq

/-- Input `CreateShipmentInput`. -/
structure CreateShipmentInput where
  trackingNumber : Option String
  shipperName : String
  shipperPhone : Option String
  shipperEmail : Option String
  consigneeName : String
  consigneePhone : Option String
  consigneeEmail : Option String
  pickupLocation : LocationInput
  deliveryLocation : LocationInput
  carrierName : Option String
  carrierPhone : Option String
  weight : Option Int
  dimensions : Option DimensionsInput
  rate : Option Int
  currency : Option String
  pickupDate : Option Int
  estimatedDelivery : Option Int
  notes : Option String
  deriving Repr, DecidableEq

/-- Prisma `location.create`: new row from a `LocationInput`, fresh id. -/
def createLocation (input : LocationInput) (db : DB) : Location × DB :=
  let loc : Location :=
    { id := freshId db
      address := input.address
      city := input.city
      state := input.state
      country := input.country
      postalCode := input.postalCode
      latitude := input.latitude
      longitude := input.longitude }
  (loc, { db with locations := db.locations ++ [loc], nextId := db.nextId + 1 })

/-- Modelled from the spec: the Prisma schema file (`schema.prisma`) is
not part of the source tree; per the end-to-end scenario of the spec a
freshly created shipment has `isFlagged = false`, so the schema default
for the `isFlagged` column (which `createShipment` leaves to Prisma) is
taken to be `false`. -/
def defaultIsFlagged : Bool := false

/-- The `createShipment` mutation (lines 333-406): auth gate, then four
separate writes in sequence — pickup location, delivery location,
optional dimensions row, the shipment itself (with JS-truthiness
defaults for `trackingNumber`, `carrierName`, `currency` and a
nullish-coalescing default for `rate`), and finally the initial
"Shipment Created" tracking event.  `now` stands for the clock,
`rand` for the contribution of `Math.random()` to a generated tracking
number. -/
def createShipment (ctx : Ctx) (input : CreateShipmentInput) (now : Int)
    (rand : String) (db : DB) : Except Err (Shipment × DB) :=
  match requireAuth ctx with
  | .error e => .error e
  | .ok user =>
    let (pickupLocation, db1) := createLocation input.pickupLocation db
    let (deliveryLocation, db2) := createLocation input.deliveryLocation db1
    let (dimensionsId, db3) :=
      match input.dimensions with
      | none => (none, db2)
      | some d =>
        let row : DimensionsRow :=
          { id := freshId db2, length := d.length, width := d.width, height := d.height }
        (some row.id,
          { db2 with dimensionsRows := db2.dimensionsRows ++ [row], nextId := db2.nextId + 1 })
    let s : Shipment :=
      { id := freshId db3
        trackingNumber := jsOrStr input.trackingNumber (generateTrackingNumber now.toNat rand)
        shipperName := input.shipperName
        shipperPhone := input.shipperPhone
        shipperEmail := input.shipperEmail
        consigneeName := input.consigneeName
        consigneePhone := input.consigneePhone
        consigneeEmail := input.consigneeEmail
        pickupLocationId := pickupLocation.id
        deliveryLocationId := deliveryLocation.id
        carrierName := some (jsOrStr input.carrierName "TBD")
        carrierPhone := input.carrierPhone
        weight := input.weight
        dimensionsId := dimensionsId
        rate := some (input.rate.getD 0)
        currency := some (jsOrStr input.currency "USD")
        status := "PENDING"
        isFlagged := defaultIsFlagged
        flagReason := none
        pickupDate := input.pickupDate
        estimatedDelivery := input.estimatedDelivery
        actualDelivery := none
        notes := input.notes
        createdById := user.id
        updatedById := user.id
        createdAt := now
        updatedAt := now }
    let db4 := { db3 with shipments := db3.shipments ++ [s], nextId := db3.nextId + 1 }
    let ev : TrackingEvent :=
      { id := freshId db4
        shipmentId := s.id
        status := "Shipment Created"
        timestamp := now
        locationId := some pickupLocation.id
        description := some "Shipment has been created and is pending pickup" }
    .ok (s, { db4 with trackingEvents := db4.trackingEvents ++ [ev], nextId := db4.nextId + 1 })

/-- The tracking-event label derived from a status value in
`updateShipmentStatus`:
`status.replace(/_/g, space).toLowerCase().replace(/^\w/, c => c.toUpperCase())`. -/
def humanizeStatus (status : String) : String :=
  let t := (status.toList.map (fun c => if c = '_' then ' ' else c)).map Char.toLower
  match t with
  | [] => ""
  | c :: rest =>
    if c.isAlphanum || c = '_' then String.mk (c.toUpper :: rest)
    else String.mk (c :: rest)

/-- The `updateShipmentStatus` mutation (lines 541-580): auth gate, then
`update` writing the new status, `updatedById`, and — only when the new
status is `DELIVERED` — `actualDelivery := now` (for any other status the
field is passed as `undefined`, i.e. left untouched); then a tracking
event recording the change.  A missing row makes Prisma throw, surfaced
as `INTERNAL`. -/
def updateShipmentStatus (ctx : Ctx) (id status : String) (now : Int)
    (db : DB) : Except Err (Shipment × DB) :=
  match requireAuth ctx with
  | .error e => .error e
  | .ok user =>
    match db.shipments.find? (fun t => t.id = id) with
    | none => .error .INTERNAL
    | some s =>
      let s1 : Shipment :=
        { s with
          status := status
          updatedById := user.id
          actualDelivery := if status = "DELIVERED" then some now else s.actualDelivery
          updatedAt := now }
      let db1 := { db with shipments := updateWhere (fun t => t.id = id) s1 db.shipments }
      let ev : TrackingEvent :=
        { id := freshId db1
          shipmentId := id
          status := humanizeStatus status
          timestamp := now
          locationId := some s1.deliveryLocationId
          description := some ("Status updated to " ++ status) }
      .ok (s1, { db1 with trackingEvents := db1.trackingEvents ++ [ev], nextId := db1.nextId + 1 })

/-- The `flagShipment` mutation (lines 583-609): auth gate, then a single
`update` setting `isFlagged := true`, `flagReason := reason`,
`updatedById`.  No tracking event is written. -/
def flagShipment (ctx : Ctx) (id reason : String) (now : Int) (db : DB) :
    Except Err (Shipment × DB) :=
  match requireAuth ctx with
  | .error e => .error e
  | .ok user =>
    match db.shipments.find? (fun t => t.id = id) with
    | none => .error .INTERNAL
    | some s =>
      let s1 : Shipment :=
        { s with isFlagged := true, flagReason := some reason,
                 updatedById := user.id, updatedAt := now }
      .ok (s1, { db with shipments := updateWhere (fun t => t.id = id) s1 db.shipments })

/-- The `unflagShipment` mutation (lines 612-634): auth gate, then a
single `update` setting `isFlagged := false`, `flagReason := null`,
`updatedById`.  No tracking event is written. -/
def unflagShipment (ctx : Ctx) (id : String) (now : Int) (db : DB) :
    Except Err (Shipment × DB) :=
  match requireAuth ctx with
  | .error e => .error e
  | .ok user =>
    match db.shipments.find? (fun t => t.id = id) with
    | none => .error .INTERNAL
    | some s =>
      let s1 : Shipment :=
        { s with isFlagged := false, flagReason := none,
                 updatedById := user.id, updatedAt := now }
      .ok (s1, { db with shipments := updateWhere (fun t => t.id = id) s1 db.shipments })

/-- The `deleteShipment` mutation (lines 514-538): admin gate, existence
check (`NOT_FOUND` on a miss), then `trackingEvent.deleteMany` for the
shipment followed by `shipment.delete`, returning `true`.  Both throws
happen before any write. -/
def deleteShipment (ctx : Ctx) (id : String) (db : DB) :
    Except Err (Bool × DB) :=
  match requireAdmin ctx with
  | .error e => .error e
  | .ok _ =>
    match db.shipments.find? (fun t => t.id = id) with
    | none => .error .NOT_FOUND
    | some _ =>
      let db1 :=
        { db with
          trackingEvents := db.trackingEvents.filter (fun e => !(e.shipmentId = id))
          shipments := db.shipments.filter (fun t => !(t.id = id)) }
      .ok (true, db1)

/-! ## The batched relation loader

`types/context.ts` builds one DataLoader per entity type per request
(`createContext`, lines 122-127).  The batch functions
(`createUserLoader`, `createLocationLoader`, lines 11-35) are embedded
below.  The loader mechanics themselves come from the `dataloader`
library, which is not part of this source tree. -/

/-- Modelled from the spec: the request-scoped cache state of the
`dataloader` npm library
(the library source is not in this repository).  Per §4.3 of
the spec the loader "memoizes by key" and coalesces loads "into exactly
one query `WHERE id IN (keys)`"; `cache` records resolved keys in
resolution order, `queries` logs each batched key set actually sent to
the store. -/
structure LoaderState (V : Type) where
  cache : List (String × Option V)
  queries : List (List String)
  deriving Repr, DecidableEq

/-- The loader state `createContext` starts each request with. -/
def LoaderState.empty (V : Type) : LoaderState V := ⟨[], []⟩

/-- Lookup in the memoization cache: `none` = "not yet requested",
`some none` = "requested, no matching row" — the two are distinguishable. -/
def cacheLookup {V : Type} (cache : List (String × Option V)) (k : String) :
    Option (Option V) :=
  (cache.find? (fun p => p.1 = k)).map (fun p => p.2)

/-- Modelled from the spec: `loader.load(key)` for a single key reaching
the loader on its own tick — a cache hit answers from the cache with no
query; a miss issues one batched query for `[key]` and memoizes the
result. -/
def DataLoader.load {V : Type} (batchFn : List String → List (Option V))
    (st : LoaderState V) (k : String) : Option V × LoaderState V :=
  match cacheLookup st.cache k with
  | some v => (v, st)
  | none =>
    let res := (batchFn [k]).getD 0 none
    (res, { cache := st.cache ++ [(k, res)], queries := st.queries ++ [[k]] })

/-- Modelled from the spec: the keys of `load` calls issued concurrently
(the `Promise.all` of the resolver over `loader.load(id)`, lines 183-188) are
coalesced into one batched query for the distinct not-yet-cached keys;
every requested key is then answered from the updated cache. -/
def DataLoader.loadMany {V : Type} (batchFn : List String → List (Option V))
    (st : LoaderState V) (keys : List String) :
    List (Option V) × LoaderState V :=
  let newKeys := (keys.filter (fun k => (cacheLookup st.cache k).isNone)).dedup
  let st1 : LoaderState V :=
    if newKeys.isEmpty then st
    else
      { cache := st.cache ++ newKeys.zip (batchFn newKeys)
        queries := st.queries ++ [newKeys] }
  (keys.map (fun k => (cacheLookup st1.cache k).getD none), st1)

/-- The batch function of `createUserLoader` (lines 11-22): one
`findMany` with `id IN ids`, results keyed through a JS `Map` (on a
duplicate id the later row wins), and `map.get(id) ?? null` for each
requested id. -/
def userBatchFn (users : List DBUser) (ids : List String) : List (Option DBUser) :=
  let found := users.filter (fun u => ids.contains u.id)
  ids.map (fun id => found.reverse.find? (fun u => u.id = id))

/-- The batch function of `createLocationLoader` (lines 24-35), same
shape over `Location` rows. -/
def locationBatchFn (locations : List Location) (ids : List String) :
    List (Option Location) :=
  let found := locations.filter (fun l => ids.contains l.id)
  ids.map (fun id => found.reverse.find? (fun l => l.id = id))

/-! ## Concrete fixtures (used by the witnesses) -/

/-- An ADMIN context user. -/
def sampleAdmin : CtxUser :=
  { id := "u1", email := "admin@tms.com", role := "ADMIN",
    firstName := "Ada", lastName := "Admin" }

/-- An EMPLOYEE context user. -/
def sampleEmployee : CtxUser :=
  { id := "u2", email := "emp@tms.com", role := "EMPLOYEE",
    firstName := "Eve", lastName := "Employee" }

/-- A request context carrying the admin. -/
def adminCtx : Ctx := { user := some sampleAdmin }

/-- A request context carrying the employee. -/
def employeeCtx : Ctx := { user := some sampleEmployee }

/-- An unauthenticated request context. -/
def anonCtx : Ctx := { user := none }

/-- A concrete shipment row. -/
def sampleShipment : Shipment :=
  { id := "s1", trackingNumber := "TMS0001", shipperName := "Acme"
    shipperPhone := none, shipperEmail := none
    consigneeName := "Bob", consigneePhone := none, consigneeEmail := none
    pickupLocationId := "l1", deliveryLocationId := "l2"
    carrierName := some "FedEx", carrierPhone := none
    weight := some 10, dimensionsId := none
    rate := some 100, currency := some "USD"
    status := "PENDING", isFlagged := false, flagReason := none
    pickupDate := none, estimatedDelivery := none, actualDelivery := none
    notes := none, createdById := "u1", updatedById := "u1"
    createdAt := 1000, updatedAt := 1000 }

/-- A concrete tracking event owned by `sampleShipment`. -/
def sampleEvent : TrackingEvent :=
  { id := "e1", shipmentId := "s1", status := "Shipment Created",
    timestamp := 1000, locationId := some "l1", description := none }

/-- A concrete store holding the sample rows. -/
def sampleDB : DB :=
  { shipments := [sampleShipment], trackingEvents := [sampleEvent],
    locations := [], dimensionsRows := [],
    users := [⟨"u1", "admin@tms.com", "Ada", "Admin", "ADMIN", true, 0, 0⟩],
    nextId := 100 }

/-- A pickup-location input (New York). -/
def nyInput : LocationInput :=
  { address := "1 Main St", city := "New York", state := some "NY",
    country := "USA", postalCode := some "10001", latitude := none, longitude := none }

/-- A delivery-location input (Los Angeles). -/
def laInput : LocationInput :=
  { address := "2 Ocean Ave", city := "Los Angeles", state := some "CA",
    country := "USA", postalCode := some "90001", latitude := none, longitude := none }

/-- A minimal `createShipment` input: NY pickup, LA delivery, no
dimensions, all optional fields omitted. -/
def sampleCreateInput : CreateShipmentInput :=
  { trackingNumber := none, shipperName := "Acme"
    shipperPhone := none, shipperEmail := none
    consigneeName := "Bob", consigneePhone := none, consigneeEmail := none
    pickupLocation := nyInput, deliveryLocation := laInput
    carrierName := none, carrierPhone := none, weight := none
    dimensions := none, rate := none, currency := none
    pickupDate := none, estimatedDelivery := none, notes := none }

/-! ## Helper lemmas -/

/-- After `updateWhere p v`, a `find?` for `p` returns the replacement
row, provided some row matched before and the replacement still
matches. -/
theorem find?_updateWhere {α : Type} (p : α → Bool) (v a : α) (l : List α)
    (h : l.find? p = some a) (hv : p v = true) :
    (updateWhere p v l).find? p = some v := by
  induction l with
  | nil => simp at h
  | cons b t ih =>
    by_cases hb : p b = true
    · simp only [updateWhere, List.map_cons, if_pos hb]
      exact List.find?_cons_of_pos _ hv
    · rw [List.find?_cons_of_neg _ hb] at h
      simp only [updateWhere, List.map_cons, if_neg hb]
      rw [List.find?_cons_of_neg _ hb]
      exact ih h

/-- A row returned by `find?` satisfies the queried predicate and lies in
the list. -/
theorem find?_spec {α : Type} {p : α → Bool} {l : List α} {a : α}
    (h : l.find? p = some a) : p a = true ∧ a ∈ l :=
  ⟨List.find?_some h, List.mem_of_find?_eq_some h⟩

/-- Lemma: `jsCeilDiv` agrees with the mathematical ceiling of the rational
quotient whenever the divisor is positive (the situation of every
`Math.ceil(totalCount / limit)` call with a sane limit). -/
theorem jsCeilDiv_eq_ceil (a : ℕ) (b : ℤ) (hb : 0 < b) :
    jsCeilDiv (a : ℤ) b = ⌈(a : ℚ) / (b : ℚ)⌉ := by
  have hb' : ((b.toNat : ℕ) : ℤ) = b := Int.toNat_of_nonneg hb.le
  have h2 : ⌊((-(a : ℤ) : ℤ) : ℚ) / ((b.toNat : ℕ) : ℚ)⌋
      = (-(a : ℤ)) / ((b.toNat : ℕ) : ℤ) :=
    Rat.floor_intCast_div_natCast _ _
  have h3 : ((a : ℚ) / (b : ℚ)) = -(((-(a : ℤ) : ℤ) : ℚ) / ((b.toNat : ℕ) : ℚ)) := by
    have h4 : ((b.toNat : ℕ) : ℚ) = (b : ℚ) := by exact_mod_cast hb'
    rw [h4]
    push_cast
    ring
  unfold jsCeilDiv
  rw [if_pos hb, h3, Int.ceil_neg, h2, hb']

/-! ## Claim theorems -/

/-- C1: the `shipments` resolver builds the count query and the row query
from the identical predicate (`matchesFilter args.filter` in both), so —
for any filter, any sort, any store — whenever the effective page is 1
and the effective limit covers all matches, the number of returned rows
equals `pageInfo.totalCount`, which is the number of rows matching the
filter. -/
theorem shipments_totalCount_matches_rows (ctx : Ctx) (u : CtxUser)
    (args : ShipmentsArgs) (db : DB)
    (hu : ctx.user = some u)
    (hpage : effectivePage args.pagination = 1)
    (hlim : (db.shipments.filter (matchesFilter args.filter)).length
              ≤ (effectiveLimit args.pagination).toNat) :
    ∃ conn, shipmentsQuery ctx args db = .ok conn ∧
      conn.edges.length = conn.pageInfo.totalCount ∧
      conn.pageInfo.totalCount
        = (db.shipments.filter (matchesFilter args.filter)).length := by
  have hskip : (effectivePage args.pagination - 1) * effectiveLimit args.pagination = 0 := by
    rw [hpage]
    ring
  unfold shipmentsQuery requireAuth
  rw [hu]
  simp only [hskip]
  norm_num
  by_cases hneg : effectiveLimit args.pagination < 0
  · have h0 : (effectiveLimit args.pagination).toNat = 0 :=
      Int.toNat_eq_zero.mpr hneg.le
    have hml : (db.shipments.filter (matchesFilter args.filter)).length = 0 := by
      rw [h0] at hlim
      exact Nat.le_zero.mp hlim
    have hs0 : ((db.shipments.filter (matchesFilter args.filter)).mergeSort
        (shipmentLe args.sort)).length = 0 := by
      rw [(List.mergeSort_perm _ _).length_eq]
      exact hml
    rw [if_pos hneg]
    simp [List.length_reverse, List.length_take, hs0, hml]
  · rw [if_neg hneg]
    rw [List.length_take, (List.mergeSort_perm _ _).length_eq]
    exact Nat.min_eq_right hlim

/-- C1 witness: on the sample store, with no pagination argument (page
defaults to 1, limit to 10, both covering the single matching row), the
returned row count and `totalCount` agree and equal 1. -/
theorem shipments_totalCount_matches_rows_witness :
    ∃ conn, shipmentsQuery adminCtx
        { filter := none, sort := none, pagination := none } sampleDB = .ok conn ∧
      conn.edges.length = conn.pageInfo.totalCount ∧
      conn.pageInfo.totalCount
        = (sampleDB.shipments.filter (matchesFilter none)).length :=
  shipments_totalCount_matches_rows adminCtx sampleAdmin
    { filter := none, sort := none, pagination := none } sampleDB
    rfl (by decide) (by decide)

/-- C2: for every pagination input, `page` defaults to 1 when absent,
`limit` defaults to 10 when absent, and `Math.min` clamps the effective
limit to at most 100 whatever the caller supplies; every successful
`shipments` response whose effective limit is non-negative (every
defaulted or positive request) carries at most 100 rows — in particular
any request with `limit = 1000`, on any store and any page, yields at
most 100 rows.  (A caller-supplied negative limit is not bounded below
by the clamp; Prisma then reads from the end of the ordering, which is
outside what this claim asserts.) -/
theorem shipments_pagination_defaults_and_clamp :
    effectivePage none = 1 ∧ effectiveLimit none = 10 ∧
    (∀ p : PaginationInput, p.page = none → effectivePage (some p) = 1) ∧
    (∀ p : PaginationInput, p.limit = none → effectiveLimit (some p) = 10) ∧
    (∀ p : Option PaginationInput, effectiveLimit p ≤ 100) ∧
    (∀ (ctx : Ctx) (u : CtxUser) (args : ShipmentsArgs) (db : DB)
        (conn : ShipmentConnection), ctx.user = some u →
        0 ≤ effectiveLimit args.pagination →
        shipmentsQuery ctx args db = .ok conn → conn.edges.length ≤ 100) ∧
    (∀ (ctx : Ctx) (u : CtxUser) (filter : Option ShipmentFilterInput)
        (sort0 : Option SortInput) (page : Option Int) (db : DB)
        (conn : ShipmentConnection), ctx.user = some u →
        shipmentsQuery ctx
          { filter := filter, sort := sort0,
            pagination := some { page := page, limit := some 1000 } } db
          = .ok conn →
        conn.edges.length ≤ 100) := by
  have key : ∀ (ctx : Ctx) (u : CtxUser) (args : ShipmentsArgs) (db : DB)
      (conn : ShipmentConnection), ctx.user = some u →
      0 ≤ effectiveLimit args.pagination →
      shipmentsQuery ctx args db = .ok conn → conn.edges.length ≤ 100 := by
    intro ctx u args db conn hu hlim0 hq
    unfold shipmentsQuery requireAuth at hq
    rw [hu] at hq
    by_cases hskip : (effectivePage args.pagination - 1)
        * effectiveLimit args.pagination < 0
    · simp only [if_pos hskip] at hq
      exact absurd hq (by simp)
    · simp only [if_neg hskip, if_neg (not_lt.mpr hlim0),
        Except.ok.injEq] at hq
      subst hq
      have h1 : (effectiveLimit args.pagination).toNat ≤ (100 : Int).toNat :=
        Int.toNat_le_toNat (min_le_right _ _)
      have h2 : (List.take (effectiveLimit args.pagination).toNat
          (List.drop ((effectivePage args.pagination - 1)
              * effectiveLimit args.pagination).toNat
            ((db.shipments.filter (matchesFilter args.filter)).mergeSort
              (shipmentLe args.sort)))).length
          ≤ (effectiveLimit args.pagination).toNat := by
        rw [List.length_take]
        exact Nat.min_le_left _ _
      exact le_trans h2 h1
  refine ⟨rfl, rfl, ?_, ?_, ?_, key, ?_⟩
  · intro p hp
    simp [effectivePage, jsOrInt, hp]
  · intro p hp
    simp [effectiveLimit, jsOrInt, hp]
  · intro p
    exact min_le_right _ _
  · intro ctx u filter sort0 page db conn hu hq
    have hl : (0 : Int) ≤ effectiveLimit
        (some { page := page, limit := some 1000 }) := by
      norm_num [effectiveLimit, jsOrInt]
    exact key ctx u
      { filter := filter, sort := sort0,
        pagination := some { page := page, limit := some 1000 } } db conn
      hu hl hq

/-- C2 witness: requesting `limit = 1000` (page absent) yields effective
page 1, a clamped effective limit, and at most 100 rows on the sample
store. -/
theorem shipments_pagination_defaults_and_clamp_witness :
    effectivePage (some { page := none, limit := some 1000 }) = 1 ∧
    effectiveLimit (some { page := none, limit := some 1000 }) ≤ 100 ∧
    ∃ conn, shipmentsQuery adminCtx
        { filter := none, sort := none,
          pagination := some { page := none, limit := some 1000 } } sampleDB
        = .ok conn ∧ conn.edges.length ≤ 100 := by
  obtain ⟨-, -, h3, -, h5, -, h7⟩ := shipments_pagination_defaults_and_clamp
  exact ⟨h3 _ rfl, h5 _, _, rfl,
    h7 adminCtx sampleAdmin none none none sampleDB _ rfl rfl⟩

/-- C8: every successful `shipments` response (any positive effective
limit) satisfies `currentPage = page`, `hasPreviousPage = page > 1`,
`hasNextPage = page < totalPages`, and
`totalPages = ceil(totalCount / limit)` for the effective (defaulted and
clamped) page and limit, with `totalCount` the number of matching
rows. -/
theorem shipments_pageInfo_spec (ctx : Ctx) (u : CtxUser)
    (args : ShipmentsArgs) (db : DB) (conn : ShipmentConnection)
    (hu : ctx.user = some u)
    (hq : shipmentsQuery ctx args db = .ok conn)
    (hlim : 0 < effectiveLimit args.pagination) :
    conn.pageInfo.currentPage = effectivePage args.pagination ∧
    conn.pageInfo.hasPreviousPage = decide (1 < effectivePage args.pagination) ∧
    conn.pageInfo.hasNextPage
      = decide (effectivePage args.pagination < conn.pageInfo.totalPages) ∧
    conn.pageInfo.totalPages
      = ⌈(conn.pageInfo.totalCount : ℚ) / (effectiveLimit args.pagination : ℚ)⌉ ∧
    conn.pageInfo.totalCount
      = (db.shipments.filter (matchesFilter args.filter)).length := by
  unfold shipmentsQuery requireAuth at hq
  rw [hu] at hq
  by_cases hskip : (effectivePage args.pagination - 1)
      * effectiveLimit args.pagination < 0
  · simp only [if_pos hskip] at hq
    exact absurd hq (by simp)
  · simp only [if_neg hskip, Except.ok.injEq] at hq
    subst hq
    refine ⟨rfl, rfl, rfl, ?_, rfl⟩
    exact jsCeilDiv_eq_ceil _ _ hlim

/-- C8 witness: on the sample store with default pagination the metadata
equations hold concretely (page 1, limit 10, one matching row). -/
theorem shipments_pageInfo_spec_witness :
    ∃ conn, shipmentsQuery adminCtx
        { filter := none, sort := none, pagination := none } sampleDB = .ok conn ∧
      conn.pageInfo.currentPage = 1 ∧
      conn.pageInfo.hasPreviousPage = false ∧
      conn.pageInfo.totalPages = ⌈((conn.pageInfo.totalCount : ℚ) / 10)⌉ := by
  obtain ⟨h1, -, h3, h4, -⟩ :=
    shipments_pageInfo_spec adminCtx sampleAdmin
      { filter := none, sort := none, pagination := none } sampleDB _
      rfl rfl (by decide)
  exact ⟨_, rfl, h1, h3, h4⟩

/-- C9: `shipmentByTrackingNumber` never raises — for any context,
including an unauthenticated one, it returns `ok`: the matching shipment
when one exists, `null` otherwise. -/
theorem shipmentByTrackingNumber_public (ctx : Ctx) (tn : String) (db : DB) :
    (∀ e : Err, shipmentByTrackingNumber ctx tn db ≠ .error e) ∧
    ((∀ s ∈ db.shipments, s.trackingNumber ≠ tn) →
      shipmentByTrackingNumber ctx tn db = .ok none) ∧
    (∀ s : Shipment, shipmentByTrackingNumber ctx tn db = .ok (some s) →
      s ∈ db.shipments ∧ s.trackingNumber = tn) ∧
    ((∃ s ∈ db.shipments, s.trackingNumber = tn) →
      ∃ s, shipmentByTrackingNumber ctx tn db = .ok (some s) ∧
        s ∈ db.shipments ∧ s.trackingNumber = tn) := by
  refine ⟨?_, ?_, ?_, ?_⟩
  · intro e h
    simp [shipmentByTrackingNumber] at h
  · intro h
    have hn : db.shipments.find? (fun s => s.trackingNumber = tn) = none := by
      rw [List.find?_eq_none]
      intro x hx
      simp [h x hx]
    unfold shipmentByTrackingNumber
    rw [hn]
  · intro s hs
    unfold shipmentByTrackingNumber at hs
    simp only [Except.ok.injEq] at hs
    obtain ⟨hp, hm⟩ := find?_spec hs
    exact ⟨hm, by simpa using hp⟩
  · rintro ⟨s, hsm, htn⟩
    have hsome : (db.shipments.find? (fun x => x.trackingNumber = tn)).isSome := by
      rw [List.find?_isSome]
      exact ⟨s, hsm, by simp [htn]⟩
    obtain ⟨r, hr⟩ := Option.isSome_iff_exists.mp hsome
    obtain ⟨hp, hm⟩ := find?_spec hr
    refine ⟨r, ?_, hm, by simpa using hp⟩
    unfold shipmentByTrackingNumber
    rw [hr]

/-- C9 witness: an unauthenticated lookup of the sample tracking number
does not raise `UNAUTHENTICATED` and finds the sample shipment. -/
theorem shipmentByTrackingNumber_public_witness :
    shipmentByTrackingNumber anonCtx "TMS0001" sampleDB
        ≠ .error .UNAUTHENTICATED ∧
    ∃ s, shipmentByTrackingNumber anonCtx "TMS0001" sampleDB = .ok (some s) ∧
      s ∈ sampleDB.shipments ∧ s.trackingNumber = "TMS0001" := by
  obtain ⟨h1, -, -, h4⟩ := shipmentByTrackingNumber_public anonCtx "TMS0001" sampleDB
  exact ⟨h1 _, h4 ⟨sampleShipment, by simp [sampleDB], rfl⟩⟩

/-- Helper: the successful shape of `updateShipmentStatus` — the updated
row carries the new status and stamps `actualDelivery` exactly when the
new status is `DELIVERED`; the store gets the replaced row and one new
tracking event. -/
theorem updateShipmentStatus_ok (ctx : Ctx) (u : CtxUser) (id status : String)
    (now : Int) (db : DB) (s : Shipment)
    (hu : ctx.user = some u)
    (hs : db.shipments.find? (fun t => t.id = id) = some s) :
    ∃ db', updateShipmentStatus ctx id status now db =
      .ok ({ s with
             status := status
             updatedById := u.id
             actualDelivery :=
               if status = "DELIVERED" then some now else s.actualDelivery
             updatedAt := now }, db') ∧
      db'.shipments = updateWhere (fun t => t.id = id)
        { s with
          status := status
          updatedById := u.id
          actualDelivery :=
            if status = "DELIVERED" then some now else s.actualDelivery
          updatedAt := now } db.shipments := by
  unfold updateShipmentStatus requireAuth
  rw [hu, hs]
  exact ⟨_, rfl, rfl⟩

/-- C4: transitioning a shipment with unset `actualDelivery` to
`DELIVERED` stamps `actualDelivery` with the current time, and a
subsequent transition to any non-`DELIVERED` status leaves that stamp
untouched. -/
theorem updateShipmentStatus_delivered_stamp (ctx1 ctx2 : Ctx)
    (u1 u2 : CtxUser) (id st2 : String) (now1 now2 : Int) (db : DB)
    (s : Shipment)
    (h1 : ctx1.user = some u1) (h2 : ctx2.user = some u2)
    (hs : db.shipments.find? (fun t => t.id = id) = some s)
    (_had : s.actualDelivery = none)
    (hst2 : st2 ≠ "DELIVERED") :
    ∃ s1 db1 s2 db2,
      updateShipmentStatus ctx1 id "DELIVERED" now1 db = .ok (s1, db1) ∧
      s1.actualDelivery = some now1 ∧
      updateShipmentStatus ctx2 id st2 now2 db1 = .ok (s2, db2) ∧
      s2.actualDelivery = some now1 := by
  obtain ⟨db1, e1, hsh1⟩ :=
    updateShipmentStatus_ok ctx1 u1 id "DELIVERED" now1 db s h1 hs
  have hsid : (fun t : Shipment => decide (t.id = id))
      { s with
        status := "DELIVERED"
        updatedById := u1.id
        actualDelivery :=
          if ("DELIVERED" : String) = "DELIVERED" then some now1
          else s.actualDelivery
        updatedAt := now1 } = true := by
    have := (find?_spec hs).1
    simpa using this
  have hfind1 : db1.shipments.find? (fun t => t.id = id) =
      some { s with
             status := "DELIVERED"
             updatedById := u1.id
             actualDelivery :=
               if ("DELIVERED" : String) = "DELIVERED" then some now1
               else s.actualDelivery
             updatedAt := now1 } := by
    rw [hsh1]
    exact find?_updateWhere _ _ _ _ hs hsid
  obtain ⟨db2, e2, -⟩ :=
    updateShipmentStatus_ok ctx2 u2 id st2 now2 db1 _ h2 hfind1
  refine ⟨_, db1, _, db2, e1, by simp, e2, ?_⟩
  simp [if_neg hst2]

/-- C4 witness: the sample shipment (no `actualDelivery`) marked
`DELIVERED` at time 2000 then `ON_HOLD` at time 3000 keeps
`actualDelivery = 2000`. -/
theorem updateShipmentStatus_delivered_stamp_witness :
    ∃ s1 db1 s2 db2,
      updateShipmentStatus adminCtx "s1" "DELIVERED" 2000 sampleDB
        = .ok (s1, db1) ∧
      s1.actualDelivery = some 2000 ∧
      updateShipmentStatus employeeCtx "s1" "ON_HOLD" 3000 db1
        = .ok (s2, db2) ∧
      s2.actualDelivery = some 2000 :=
  updateShipmentStatus_delivered_stamp adminCtx employeeCtx sampleAdmin
    sampleEmployee "s1" "ON_HOLD" 2000 3000 sampleDB sampleShipment
    rfl rfl (by decide) rfl (by decide)

/-- C5: an authenticated `createShipment` with pickup and delivery
locations and no dimensions yields a shipment with status `PENDING` and
`isFlagged = false`, and the operation appends exactly one tracking
event — a "Shipment Created" event for the new shipment. -/
theorem createShipment_pending_unflagged_one_event (ctx : Ctx) (u : CtxUser)
    (input : CreateShipmentInput) (now : Int) (rand : String) (db : DB)
    (hu : ctx.user = some u) (hdim : input.dimensions = none) :
    ∃ s db', createShipment ctx input now rand db = .ok (s, db') ∧
      s.status = "PENDING" ∧ s.isFlagged = false ∧
      ∃ ev, db'.trackingEvents = db.trackingEvents ++ [ev] ∧
        ev.status = "Shipment Created" ∧ ev.shipmentId = s.id := by
  unfold createShipment requireAuth
  rw [hu, hdim]
  exact ⟨_, _, rfl, rfl, rfl, _, rfl, rfl, rfl⟩

/-- C5 witness: creating a New York → Los Angeles shipment with no
dimensions on the sample store. -/
theorem createShipment_pending_unflagged_one_event_witness :
    ∃ s db', createShipment adminCtx sampleCreateInput 5000 "AB12CD" sampleDB
        = .ok (s, db') ∧
      s.status = "PENDING" ∧ s.isFlagged = false ∧
      ∃ ev, db'.trackingEvents = sampleDB.trackingEvents ++ [ev] ∧
        ev.status = "Shipment Created" ∧ ev.shipmentId = s.id :=
  createShipment_pending_unflagged_one_event adminCtx sampleAdmin
    sampleCreateInput 5000 "AB12CD" sampleDB rfl rfl

/-- C10: omitted optional `createShipment` fields are stored as non-null
defaults — `carrierName` becomes `"TBD"`, `rate` becomes `0`, `currency`
becomes `"USD"`, and an absent `trackingNumber` is replaced by a
generated value starting with `"TMS"`. -/
theorem createShipment_fills_defaults (ctx : Ctx) (u : CtxUser)
    (input : CreateShipmentInput) (now : Int) (rand : String) (db : DB)
    (hu : ctx.user = some u)
    (hcn : input.carrierName = none) (hr : input.rate = none)
    (hcur : input.currency = none) (htn : input.trackingNumber = none) :
    ∃ s db', createShipment ctx input now rand db = .ok (s, db') ∧
      s.carrierName = some "TBD" ∧ s.rate = some 0 ∧
      s.currency = some "USD" ∧
      ∃ rest, s.trackingNumber = "TMS" ++ rest := by
  unfold createShipment requireAuth generateTrackingNumber
  rw [hu, hcn, hr, hcur, htn]
  cases input.dimensions <;>
    exact ⟨_, _, rfl, rfl, rfl, rfl, _, rfl⟩

/-- C10 witness: the sample input omits all four fields; the created
shipment carries the defaults and a `TMS`-prefixed tracking number. -/
theorem createShipment_fills_defaults_witness :
    ∃ s db', createShipment adminCtx sampleCreateInput 5000 "AB12CD" sampleDB
        = .ok (s, db') ∧
      s.carrierName = some "TBD" ∧ s.rate = some 0 ∧
      s.currency = some "USD" ∧
      ∃ rest, s.trackingNumber = "TMS" ++ rest :=
  createShipment_fills_defaults adminCtx sampleAdmin sampleCreateInput
    5000 "AB12CD" sampleDB rfl rfl rfl rfl rfl

/-- C6: flagging a shipment and then unflagging it leaves
`isFlagged = false` and `flagReason = null`; neither mutation writes a
tracking event; and every shipment field other than the flag pair,
`updatedById` and `updatedAt` is exactly as before (expressed by
restoring those four fields and comparing whole records). -/
theorem flag_unflag_roundtrip (ctx1 ctx2 : Ctx) (u1 u2 : CtxUser)
    (id reason : String) (now1 now2 : Int) (db : DB) (s : Shipment)
    (h1 : ctx1.user = some u1) (h2 : ctx2.user = some u2)
    (hs : db.shipments.find? (fun t => t.id = id) = some s) :
    ∃ s1 db1 s2 db2,
      flagShipment ctx1 id reason now1 db = .ok (s1, db1) ∧
      unflagShipment ctx2 id now2 db1 = .ok (s2, db2) ∧
      s2.isFlagged = false ∧ s2.flagReason = none ∧
      db1.trackingEvents = db.trackingEvents ∧
      db2.trackingEvents = db.trackingEvents ∧
      { s2 with
        isFlagged := s.isFlagged
        flagReason := s.flagReason
        updatedById := s.updatedById
        updatedAt := s.updatedAt } = s := by
  have hsid : (fun t : Shipment => decide (t.id = id))
      { s with
        isFlagged := true
        flagReason := some reason
        updatedById := u1.id
        updatedAt := now1 } = true := by
    have := (find?_spec hs).1
    simpa using this
  have e1 : flagShipment ctx1 id reason now1 db =
      .ok ({ s with
             isFlagged := true
             flagReason := some reason
             updatedById := u1.id
             updatedAt := now1 },
           { db with
             shipments := updateWhere (fun t => t.id = id)
               { s with
                 isFlagged := true
                 flagReason := some reason
                 updatedById := u1.id
                 updatedAt := now1 } db.shipments }) := by
    unfold flagShipment requireAuth
    rw [h1, hs]
  have hfind1 : ({ db with
      shipments := updateWhere (fun t : Shipment => t.id = id)
        { s with
          isFlagged := true
          flagReason := some reason
          updatedById := u1.id
          updatedAt := now1 } db.shipments } : DB).shipments.find?
        (fun t => t.id = id) =
      some { s with
             isFlagged := true
             flagReason := some reason
             updatedById := u1.id
             updatedAt := now1 } :=
    find?_updateWhere _ _ _ _ hs hsid
  have e2 : unflagShipment ctx2 id now2
      { db with
        shipments := updateWhere (fun t : Shipment => t.id = id)
          { s with
            isFlagged := true
            flagReason := some reason
            updatedById := u1.id
            updatedAt := now1 } db.shipments } =
      .ok ({ s with
             isFlagged := false
             flagReason := none
             updatedById := u2.id
             updatedAt := now2 },
           { db with
             shipments := updateWhere (fun t => t.id = id)
               { s with
                 isFlagged := false
                 flagReason := none
                 updatedById := u2.id
                 updatedAt := now2 }
               (updateWhere (fun t : Shipment => t.id = id)
                 { s with
                   isFlagged := true
                   flagReason := some reason
                   updatedById := u1.id
                   updatedAt := now1 } db.shipments) }) := by
    unfold unflagShipment requireAuth
    rw [h2, hfind1]
  exact ⟨_, _, _, _, e1, e2, rfl, rfl, rfl, rfl, rfl⟩

/-- C6 witness: flagging the sample shipment with "Delayed" then
unflagging it restores an unflagged record with no reason and no new
tracking events. -/
theorem flag_unflag_roundtrip_witness :
    ∃ s1 db1 s2 db2,
      flagShipment adminCtx "s1" "Delayed" 2000 sampleDB = .ok (s1, db1) ∧
      unflagShipment employeeCtx "s1" 3000 db1 = .ok (s2, db2) ∧
      s2.isFlagged = false ∧ s2.flagReason = none ∧
      db1.trackingEvents = sampleDB.trackingEvents ∧
      db2.trackingEvents = sampleDB.trackingEvents ∧
      { s2 with
        isFlagged := sampleShipment.isFlagged
        flagReason := sampleShipment.flagReason
        updatedById := sampleShipment.updatedById
        updatedAt := sampleShipment.updatedAt } = sampleShipment :=
  flag_unflag_roundtrip adminCtx employeeCtx sampleAdmin sampleEmployee
    "s1" "Delayed" 2000 3000 sampleDB sampleShipment rfl rfl (by decide)

/-- C7: `deleteShipment` deletes all tracking events of the shipment
and the shipment itself and returns `true` for an ADMIN caller on an
existing id (a subsequent fetch finds neither); it fails with
`FORBIDDEN` for an authenticated non-admin, `UNAUTHENTICATED` without a
credential, and `NOT_FOUND` for a missing id — in each failure case
before any delete. -/
theorem deleteShipment_spec :
    (∀ (ctx : Ctx) (u : CtxUser) (id : String) (db : DB) (s : Shipment),
      ctx.user = some u → u.role = "ADMIN" →
      db.shipments.find? (fun t => t.id = id) = some s →
      ∃ db', deleteShipment ctx id db = .ok (true, db') ∧
        db'.shipments.find? (fun t => t.id = id) = none ∧
        db'.trackingEvents.filter (fun e => e.shipmentId = id) = [] ∧
        db'.trackingEvents
          = db.trackingEvents.filter (fun e => !(e.shipmentId = id)) ∧
        db'.shipments = db.shipments.filter (fun t => !(t.id = id))) ∧
    (∀ (ctx : Ctx) (u : CtxUser) (id : String) (db : DB),
      ctx.user = some u → u.role ≠ "ADMIN" →
      deleteShipment ctx id db = .error .FORBIDDEN) ∧
    (∀ (ctx : Ctx) (id : String) (db : DB),
      ctx.user = none → deleteShipment ctx id db = .error .UNAUTHENTICATED) ∧
    (∀ (ctx : Ctx) (u : CtxUser) (id : String) (db : DB),
      ctx.user = some u → u.role = "ADMIN" →
      db.shipments.find? (fun t => t.id = id) = none →
      deleteShipment ctx id db = .error .NOT_FOUND) := by
  refine ⟨?_, ?_, ?_, ?_⟩
  · intro ctx u id db s hu hrole hs
    have hadm : requireAdmin ctx = .ok u := by
      unfold requireAdmin requireAuth
      rw [hu]
      simp [hrole]
    unfold deleteShipment
    rw [hadm, hs]
    refine ⟨_, rfl, ?_, ?_, rfl, rfl⟩
    · rw [List.find?_eq_none]
      intro x hx
      have hx2 := (List.mem_filter.mp hx).2
      simpa using hx2
    · rw [List.filter_eq_nil_iff]
      intro x hx
      have hx2 := (List.mem_filter.mp hx).2
      simpa using hx2
  · intro ctx u id db hu hrole
    have hadm : requireAdmin ctx = .error .FORBIDDEN := by
      unfold requireAdmin requireAuth
      rw [hu]
      simp [hrole]
    unfold deleteShipment
    rw [hadm]
  · intro ctx id db hu
    have hadm : requireAdmin ctx = .error .UNAUTHENTICATED := by
      unfold requireAdmin requireAuth
      rw [hu]
    unfold deleteShipment
    rw [hadm]
  · intro ctx u id db hu hrole hs
    have hadm : requireAdmin ctx = .ok u := by
      unfold requireAdmin requireAuth
      rw [hu]
      simp [hrole]
    unfold deleteShipment
    rw [hadm, hs]

/-- C7 witness: on the sample store the admin delete of `"s1"` succeeds
and removes the shipment and its events; the employee gets `FORBIDDEN`,
the anonymous caller `UNAUTHENTICATED`, and a missing id `NOT_FOUND`. -/
theorem deleteShipment_spec_witness :
    (∃ db', deleteShipment adminCtx "s1" sampleDB = .ok (true, db') ∧
      db'.shipments.find? (fun t => t.id = "s1") = none ∧
      db'.trackingEvents.filter (fun e => e.shipmentId = "s1") = []) ∧
    deleteShipment employeeCtx "s1" sampleDB = .error .FORBIDDEN ∧
    deleteShipment anonCtx "s1" sampleDB = .error .UNAUTHENTICATED ∧
    deleteShipment adminCtx "nope" sampleDB = .error .NOT_FOUND := by
  obtain ⟨p1, p2, p3, p4⟩ := deleteShipment_spec
  refine ⟨?_, p2 _ sampleEmployee _ _ rfl (by decide), p3 _ _ _ rfl,
    p4 _ sampleAdmin _ _ rfl rfl (by decide)⟩
  obtain ⟨db', e1, e2, e3, -, -⟩ :=
    p1 adminCtx sampleAdmin "s1" sampleDB sampleShipment rfl rfl (by decide)
  exact ⟨db', e1, e2, e3⟩

/-- Lemma: `find?` skips a prefix in which nothing matches. -/
theorem find?_append_of_none {α : Type} (p : α → Bool) (l1 l2 : List α)
    (h : l1.find? p = none) : (l1 ++ l2).find? p = l2.find? p := by
  induction l1 with
  | nil => rfl
  | cons b t ih =>
    by_cases hb : p b = true
    · rw [List.find?_cons_of_pos _ hb] at h
      simp at h
    · rw [List.find?_cons_of_neg _ hb] at h
      rw [List.cons_append, List.find?_cons_of_neg _ hb]
      exact ih h

/-- C3: within one request-scoped loader, (i) a second `load` of the same
key returns the value of the first and leaves the loader state — in
particular its query log — unchanged; (ii) a batch of concurrent loads
against a fresh loader issues at most one underlying query, over the
distinct requested keys; (iii)/(iv) a key with no matching row resolves
to the explicit `none` (not an error), for the user loader and the
location loader alike. -/
theorem loader_memoizes_batches_and_nulls :
    (∀ (V : Type) (f : List String → List (Option V)) (st : LoaderState V)
        (k : String),
      (DataLoader.load f (DataLoader.load f st k).2 k).1
          = (DataLoader.load f st k).1 ∧
      (DataLoader.load f (DataLoader.load f st k).2 k).2
          = (DataLoader.load f st k).2) ∧
    (∀ (V : Type) (f : List String → List (Option V)) (keys : List String),
      (DataLoader.loadMany f (LoaderState.empty V) keys).2.queries
          = (if keys.dedup.isEmpty then [] else [keys.dedup])) ∧
    (∀ (users : List DBUser) (st : LoaderState DBUser) (k : String),
      cacheLookup st.cache k = none → (∀ u ∈ users, u.id ≠ k) →
      (DataLoader.load (userBatchFn users) st k).1 = none) ∧
    (∀ (locs : List Location) (st : LoaderState Location) (k : String),
      cacheLookup st.cache k = none → (∀ l ∈ locs, l.id ≠ k) →
      (DataLoader.load (locationBatchFn locs) st k).1 = none) := by
  refine ⟨?_, ?_, ?_, ?_⟩
  · intro V f st k
    unfold DataLoader.load
    cases h : cacheLookup st.cache k with
    | some v => simp [h]
    | none =>
      have hfn : st.cache.find? (fun p => p.1 = k) = none := by
        unfold cacheLookup at h
        cases hf : st.cache.find? (fun p => p.1 = k)
        · rfl
        · rw [hf] at h
          simp at h
      have h2 : ∀ r : Option V, cacheLookup (st.cache ++ [(k, r)]) k = some r := by
        intro r
        unfold cacheLookup
        rw [find?_append_of_none _ _ _ hfn]
        simp
      simp [h, h2]
  · intro V f keys
    simp only [DataLoader.loadMany, LoaderState.empty, cacheLookup,
      List.find?_nil, Option.map_none, Option.isNone_none, List.filter_true]
    by_cases hk : keys.dedup.isEmpty
    · simp [hk]
    · simp [hk]
  · intro users st k hc hnone
    have hfind : ((users.filter
        (fun u => ([k] : List String).contains u.id)).reverse.find?
        (fun u => u.id = k)) = none := by
      rw [List.find?_eq_none]
      intro x hx
      have hxu : x ∈ users := (List.mem_filter.mp (List.mem_reverse.mp hx)).1
      simpa using hnone x hxu
    unfold DataLoader.load
    rw [hc]
    simp [userBatchFn, hfind]
    exact hnone
  · intro locs st k hc hnone
    have hfind : ((locs.filter
        (fun l => ([k] : List String).contains l.id)).reverse.find?
        (fun l => l.id = k)) = none := by
      rw [List.find?_eq_none]
      intro x hx
      have hxl : x ∈ locs := (List.mem_filter.mp (List.mem_reverse.mp hx)).1
      simpa using hnone x hxl
    unfold DataLoader.load
    rw [hc]
    simp [locationBatchFn, hfind]
    exact hnone

/-- C3 witness: on the sample store, loading `"u1"` twice gives the same
value and the same loader state; a fresh batch over `["u1","u1","zzz"]`
logs exactly one query over the distinct keys; the unmatched keys
`"zzz"` resolve to `none` in both loaders. -/
theorem loader_memoizes_batches_and_nulls_witness :
    (DataLoader.load (userBatchFn sampleDB.users)
        (DataLoader.load (userBatchFn sampleDB.users)
          (LoaderState.empty DBUser) "u1").2 "u1").1
      = (DataLoader.load (userBatchFn sampleDB.users)
          (LoaderState.empty DBUser) "u1").1 ∧
    (DataLoader.loadMany (userBatchFn sampleDB.users)
        (LoaderState.empty DBUser) ["u1", "u1", "zzz"]).2.queries
      = (if (["u1", "u1", "zzz"].dedup).isEmpty then []
         else [["u1", "u1", "zzz"].dedup]) ∧
    (DataLoader.load (userBatchFn sampleDB.users)
        (LoaderState.empty DBUser) "zzz").1 = none ∧
    (DataLoader.load (locationBatchFn sampleDB.locations)
        (LoaderState.empty Location) "zzz").1 = none := by
  obtain ⟨p1, p2, p3, p4⟩ := loader_memoizes_batches_and_nulls
  exact ⟨(p1 _ _ _ _).1, p2 _ _ _, p3 _ _ _ rfl (by decide),
    p4 _ _ _ rfl (by decide)⟩

end TMS
